import Mathlib

/-
Shallow embedding of `processdata/plots.py` from the covid19-dashboard
repository.

The module has four chart builders — `total_growth`, `daily_growth`,
`world_map`, `usa_map` — each of which fetches a table from the `getdata`
collaborator, configures a plotly figure, and (except for `usa_map`,
which discards it) returns the rendered `plot_div` markup.

The `getdata` collaborator and the network fetch of the counties geojson
are external dependencies: here each chart function takes its input
table(s) as an explicit argument.  Python mutation is made explicit by
having every chart function also return the post-call state of each
table it consumed (`usa_map` calls `df.drop([2311], inplace=True)`, the
others perform no mutating operation).  Fallible steps (pandas column
access, `drop` on a missing index label) return `Except`.
-/

set_option autoImplicit false

namespace CovidDashboard

/-- Errors surfaced by the chart builders: a pandas attribute/column
access on a missing column, and a pandas `drop` on an index label that
is absent from the table. -/
inductive PlotsError where
  | missingColumn (col : String)
  | keyError (label : Nat)
deriving DecidableEq, Repr

/-- `margin=dict(t=.., l=.., r=.., b=..)` of a plotly layout. -/
structure Margin where
  t : Nat
  l : Nat
  r : Nat
  b : Nat
deriving DecidableEq, Repr

/-- One button of the `updatemenus` dropdown of `total_growth`:
`dict(args=[\x7b'yaxis.type': ...\x7d], label=..., method='relayout')`. -/
structure UpdateButton where
  args_yaxis_type : String
  label : String
  method : String
deriving DecidableEq, Repr

/-- One `updatemenus` entry of a plotly layout. -/
structure UpdateMenu where
  ttype : String
  buttons : List UpdateButton
  x : Rat
  xanchor : String
  bgcolor : String
deriving DecidableEq, Repr

/-- One button of the x-axis `rangeselector` of `daily_growth`. -/
structure RangeButton where
  count : Option Nat
  label : String
  step : String
  stepmode : Option String
deriving DecidableEq, Repr

/-- The plotly `Layout` fields that `plots.py` sets; a field the source
leaves untouched stays at its default. -/
structure Layout where
  paper_bgcolor : Option String := none
  plot_bgcolor : Option String := none
  yaxis_type : Option String := none
  xaxis_showgrid : Option Bool := none
  template : Option String := none
  showlegend : Option Bool := none
  font_color : Option String := none
  height : Option Nat := none
  margin : Option Margin := none
  legend_x : Option Rat := none
  legend_y : Option Rat := none
  barmode : Option String := none
  updatemenus : List UpdateMenu := []
  rangeselector_buttons : List RangeButton := []
  yaxis_gridcolor : Option String := none
deriving DecidableEq, Repr

/-- Kind of a cartesian plotly trace used by `plots.py`. -/
inductive TraceKind where
  | scatter
  | bar
deriving DecidableEq, Repr

/-- A cartesian plotly trace (`go.Scatter` / `go.Bar`) with the fields
`plots.py` sets.  `visible = none` is plotly's default (the trace is
rendered); `some "legendonly"` keeps it out of the plot area. -/
structure Trace where
  kind : TraceKind
  x : List String
  y : List Int
  name : String
  mode : Option String := none
  line_width : Option Nat := none
  marker_color : Option String := none
  visible : Option String := none
deriving DecidableEq, Repr

/-- A cartesian `go.Figure`: a layout plus the traces added to it. -/
structure Figure where
  layout : Layout
  data : List Trace := []
deriving DecidableEq, Repr

/-- The result of `plotly.offline.plot(fig, ..., output_type='div')`:
the embeddable markup fragment, modelled by the figure and the options
that determine it. -/
structure PlotDiv (F : Type) where
  fig : F
  include_plotlyjs : Bool := true
  output_type : String
  displayModeBar : Bool
deriving DecidableEq, Repr

/-- `plotly.offline.plot` as used in `plots.py`:
`plot(fig, [include_plotlyjs=...,] output_type='div',
config=\x7b'displayModeBar': False\x7d)`. -/
def plot {F : Type} (fig : F) (include_plotlyjs : Bool) (output_type : String)
    (displayModeBar : Bool) : PlotDiv F :=
  { fig := fig, include_plotlyjs := include_plotlyjs,
    output_type := output_type, displayModeBar := displayModeBar }

/-! ### Input tables (shapes returned by the `getdata` collaborator) -/

/-- The cumulative global table of `getdata.realtime_growth()`: rows
indexed by date, named columns of integer counts.  The column list may
lack an expected column (the upstream-data failure mode). -/
structure TSTable where
  index : List String
  cols : List (String × List Int)
deriving DecidableEq, Repr

/-- Pandas attribute access `df.<c>`: the column named `c`, or a
missing-column error when the table has no such column. -/
def TSTable.col (df : TSTable) (c : String) : Except PlotsError (List Int) :=
  match df.cols.find? (fun p => p.fst = c) with
  | some p => .ok p.snd
  | none => .error (.missingColumn c)

/-- Whether the table carries all three columns `total_growth` reads. -/
def TSTable.hasCols (df : TSTable) : Bool :=
  ["Confirmed", "Recovered", "Deaths"].all
    (fun c => (df.cols.find? (fun p => p.fst = c)).isSome)

/-- A daily table of `getdata.daily_confirmed()` / `daily_deaths()`
after the `[['date', 'World']]` projection in `daily_growth`. -/
structure DailyTable where
  date : List String
  world : List Int
deriving DecidableEq, Repr

/-- One row of the `getdata.daily_report()` table used by `world_map`. -/
structure GeoRow where
  lat : Rat
  long_ : Rat
  confirmed : Int
  country_region : String
  combined_key : String
deriving DecidableEq, Repr, Inhabited

/-- The per-location table of `getdata.daily_report()`. -/
structure GeoTable where
  rows : List GeoRow
deriving DecidableEq, Repr

/-- One row of the `getdata.usa_counties()` table: the pandas index
label, the FIPS code, and the `cases/capita` value. -/
structure CountyRow where
  idx : Nat
  fips : String
  cases_capita : Rat
deriving DecidableEq, Repr

/-- The per-county table of `getdata.usa_counties()`. -/
structure CountyTable where
  rows : List CountyRow
deriving DecidableEq, Repr

/-- The counties geojson document fetched by `usa_map`; opaque to the
chart builder, which only forwards it to the trace. -/
structure GeoJSON where
  raw : String
deriving DecidableEq, Repr

/-- Pandas `df.drop([label])`: removes every row whose index label is
`label`; raises `KeyError` when no row carries that label.  In
`usa_map` it is called with `inplace=True`, so its result is the
table's post-call state. -/
def CountyTable.drop (df : CountyTable) (label : Nat) :
    Except PlotsError CountyTable :=
  if df.rows.any (fun r => r.idx == label) then
    .ok ⟨df.rows.filter (fun r => ¬ r.idx = label)⟩
  else
    .error (.keyError label)

/-! ### `total_growth` -/

/-- The `Layout(...)` literal of `total_growth` (lines 24-34). -/
def totalGrowthLayout : Layout :=
  { paper_bgcolor := some "rgba(0,0,0,0)"
    plot_bgcolor := some "rgba(0,0,0,0)"
    yaxis_type := some "log"
    xaxis_showgrid := some false
    template := some "plotly_dark"
    showlegend := some false
    font_color := some "#8898aa"
    height := some 310
    margin := some ⟨0, 10, 10, 0⟩ }

/-- The log/linear dropdown installed by `fig.update_layout(updatemenus=...)`
in `total_growth` (lines 37-58). -/
def logLinearMenu : UpdateMenu :=
  { ttype := "dropdown"
    buttons :=
      [ { args_yaxis_type := "log", label := "Logarithmic", method := "relayout" },
        { args_yaxis_type := "linear", label := "Linear", method := "relayout" } ]
    x := 0.05
    xanchor := "auto"
    bgcolor := "rgba(0,0,0,0)" }

/-- Result of `total_growth`: the returned markup and the post-call
state of the consumed table (never mutated by this function). -/
structure TotalGrowthResult where
  plot_div : PlotDiv Figure
  dfAfter : TSTable
deriving DecidableEq, Repr

/-- `total_growth` (lines 15-67): three line traces over the
date-indexed table, added in the order confirmed, deaths, recovered,
with the deaths trace given `marker_color='#f5365c'`; the layout
defaults the y-axis to `log` and carries the log/linear dropdown. -/
def total_growth (df : TSTable) : Except PlotsError TotalGrowthResult :=
  match df.col "Confirmed", df.col "Recovered", df.col "Deaths" with
  | .ok confirmed, .ok recovered, .ok deaths =>
    let dates := df.index
    let fig : Figure := { layout := { totalGrowthLayout with updatemenus := [logLinearMenu] } }
    let confirmed_trace : Trace :=
      { kind := .scatter, x := dates, y := confirmed, name := "Confirmed",
        mode := some "lines", line_width := some 4 }
    let recovered_trace : Trace :=
      { kind := .scatter, x := dates, y := recovered, name := "Recovered",
        mode := some "lines", line_width := some 4 }
    let deaths_trace : Trace :=
      { kind := .scatter, x := dates, y := deaths, name := "Deaths",
        mode := some "lines", line_width := some 4, marker_color := some "#f5365c" }
    let fig := { fig with data := fig.data ++ [confirmed_trace, deaths_trace, recovered_trace] }
    .ok { plot_div := plot fig true "div" false, dfAfter := df }
  | .error e, _, _ => .error e
  | .ok _, .error e, _ => .error e
  | .ok _, .ok _, .error e => .error e

/-! ### `daily_growth` -/

/-- The `rangeselector` buttons of `daily_growth` (lines 86-91). -/
def rangeSelectorButtons : List RangeButton :=
  [ { count := some 7, label := "W", step := "day", stepmode := some "backward" },
    { count := some 1, label := "M", step := "month", stepmode := some "backward" },
    { count := some 3, label := "3M", step := "month", stepmode := some "backward" },
    { count := none, label := "T", step := "all", stepmode := none } ]

/-- Result of `daily_growth`: the returned markup and the post-call
states of the two consumed tables (never mutated by this function). -/
structure DailyGrowthResult where
  plot_div : PlotDiv Figure
  casesAfter : DailyTable
  deathsAfter : DailyTable
deriving DecidableEq, Repr

/-- `daily_growth` (lines 70-98): a stacked bar figure over the two
daily tables; the deaths trace is red, the cases trace starts
`visible='legendonly'`, and `fig.add_traces` inserts cases first,
deaths second. -/
def daily_growth (daily_cases daily_deaths : DailyTable) : DailyGrowthResult :=
  let layout : Layout :=
    { paper_bgcolor := some "rgba(0,0,0,0)", plot_bgcolor := some "rgba(0,0,0,0)",
      legend_x := some 0.025, legend_y := some 1, height := some 310,
      margin := some ⟨0, 15, 10, 0⟩, barmode := some "stack" }
  let fig : Figure := { layout := layout }
  let daily_deaths_trace : Trace :=
    { kind := .bar, x := daily_deaths.date, y := daily_deaths.world,
      name := "Deaths", marker_color := some "#f5365c" }
  let daily_cases_trace : Trace :=
    { kind := .bar, x := daily_cases.date, y := daily_cases.world,
      name := "Cases", visible := some "legendonly" }
  let fig := { fig with layout :=
    { fig.layout with rangeselector_buttons := rangeSelectorButtons,
                      yaxis_gridcolor := some "#fff" } }
  let fig := { fig with data := fig.data ++ [daily_cases_trace, daily_deaths_trace] }
  { plot_div := plot fig true "div" false,
    casesAfter := daily_cases, deathsAfter := daily_deaths }

/-! ### `world_map` -/

/-- The `px.scatter_mapbox` trace of `world_map`: per-row lat/lon, with
both the color and the size channel fed from the `Confirmed` column,
hover name from `Country_Region`, hover data from `Combined_Key` and
`Confirmed`. -/
structure MapTrace where
  lat : List Rat
  lon : List Rat
  color_values : List Int
  size_values : List Int
  hover_name : List String
  hover_data_combined_key : List String
  hover_data_confirmed : List Int
deriving DecidableEq, Repr

/-- The mapbox figure of `world_map` with its configuration fields. -/
structure MapFigure where
  trace : MapTrace
  labels_combined_key : String
  zoom : Rat
  center_lat : Rat
  center_lon : Rat
  height : Nat
  mapbox_style : Option String := none
  paper_bgcolor : Option String := none
  margin : Option Margin := none
deriving DecidableEq, Repr

/-- Result of `world_map`: the returned markup and the post-call state
of the consumed table (never mutated by this function). -/
structure WorldMapResult where
  plot_div : PlotDiv MapFigure
  dfAfter : GeoTable
deriving DecidableEq, Repr

/-- `world_map` (lines 101-120): a geographic bubble chart whose color
and size are both the `Confirmed` column; rendered with
`include_plotlyjs=False`. -/
def world_map (df : GeoTable) : WorldMapResult :=
  let fig : MapFigure :=
    { trace :=
        { lat := df.rows.map (·.lat)
          lon := df.rows.map (·.long_)
          color_values := df.rows.map (·.confirmed)
          size_values := df.rows.map (·.confirmed)
          hover_name := df.rows.map (·.country_region)
          hover_data_combined_key := df.rows.map (·.combined_key)
          hover_data_confirmed := df.rows.map (·.confirmed) }
      labels_combined_key := "loc"
      zoom := 1
      center_lat := 20
      center_lon := -20
      height := 450 }
  let fig := { fig with mapbox_style := some "carto-positron",
                        paper_bgcolor := some "rgba(0,0,0,0)",
                        margin := some ⟨0, 0, 0, 0⟩ }
  { plot_div := plot fig false "div" false, dfAfter := df }

/-! ### `usa_map` -/

/-- The `go.Choroplethmapbox` trace of `usa_map`.  The final colorscale
stop in the source is an unterminated string literal
(`[1.0, ']]` on line 139); its visible characters are embedded
verbatim as the stop's color. -/
structure ChoroplethTrace where
  geojson : GeoJSON
  locations : List String
  z : List Rat
  marker_opacity : Rat
  marker_line_width : Nat
  colorscale : List (Rat × String)
deriving DecidableEq, Repr

/-- The mapbox figure of `usa_map` with its layout fields. -/
structure ChoroplethFigure where
  trace : ChoroplethTrace
  mapbox_style : Option String := none
  mapbox_zoom : Option Rat := none
  center_lat : Option Rat := none
  center_lon : Option Rat := none
  margin : Option Margin := none
deriving DecidableEq, Repr

/-- Result of `usa_map`: the value the function returns (the source
ends in `return None`, so no markup), the post-call state of the
consumed table (mutated in place by `drop`), and the figure the
function built and discarded. -/
structure UsaMapResult where
  returnValue : Option (PlotDiv ChoroplethFigure)
  dfAfter : CountyTable
  figBuilt : ChoroplethFigure
deriving DecidableEq, Repr

/-- `usa_map` (lines 123-150): drops index label 2311 in place, builds
the choropleth figure over the remaining rows, configures the basemap,
and returns `None`. -/
def usa_map (counties : GeoJSON) (df0 : CountyTable) :
    Except PlotsError UsaMapResult :=
  match df0.drop 2311 with
  | .error e => .error e
  | .ok df =>
    let fig : ChoroplethFigure :=
      { trace :=
          { geojson := counties
            locations := df.rows.map (·.fips)
            z := df.rows.map (·.cases_capita)
            marker_opacity := 0.8
            marker_line_width := 0
            colorscale := [(0, "#FFE9E6"), (0.15, "#DA3A03"), (0.50, "#331112"), (1, "]]")] } }
    let fig := { fig with mapbox_style := some "carto-positron",
                          mapbox_zoom := some 2.75,
                          center_lat := some 37.0902,
                          center_lon := some (-95.7129),
                          margin := some ⟨0, 0, 0, 0⟩ }
    .ok { returnValue := none, dfAfter := df, figBuilt := fig }

/-- The markup a call to `usa_map` hands back to its caller: the
returned value on success, nothing on an error. -/
def returnedMarkup (r : Except PlotsError UsaMapResult) :
    Option (PlotDiv ChoroplethFigure) :=
  match r with
  | .ok res => res.returnValue
  | .error _ => none

/-- The post-call table state of a `usa_map` call, when the call
completed. -/
def dfAfterOf (r : Except PlotsError UsaMapResult) : Option CountyTable :=
  match r with
  | .ok res => some res.dfAfter
  | .error _ => none

/-! ### Client-side interactions, modelled from the spec

The dropdown toggle, the legend toggle, and the range-selector presets
are executed by the charting library in the browser; that code is not
part of this repository, so the spec's description of each interaction
is modelled here. -/

/-- Modelled from the spec: the charting library's `relayout` method,
as invoked by the log/linear dropdown buttons, is "purely a rendering
instruction" that changes "only the declared axis-scale mode": it
rewrites `yaxis.type` and leaves everything else of the figure intact. -/
def applyToggle (fig : Figure) (t : String) : Figure :=
  { fig with layout := { fig.layout with yaxis_type := some t } }

/-- A sequence of log/linear toggles applied left to right. -/
def applyToggles (fig : Figure) (ts : List String) : Figure :=
  ts.foldl applyToggle fig

/-- Modelled from the spec: the legend toggle switches a trace's
initial-visibility flag ("an initial-visibility flag, not a data
filter") and touches nothing else of the trace. -/
def Trace.setVisible (tr : Trace) (v : Option String) : Trace :=
  { tr with visible := v }

/-- Modelled from the spec: whether a trace is drawn in the plot area
before any user interaction.  The library's default for an unset
`visible` is to render the trace; `'legendonly'` keeps it out of the
plot area until the user toggles its legend entry. -/
def Trace.initiallyRendered (tr : Trace) : Bool :=
  tr.visible.getD "true" = "true"

/-- Modelled from the spec: the axis window a range-selector preset
selects, on an axis whose values are day numbers and with months
idealized to 30 days.  A `backward` button with step `day`/`month`
spans its count of days/months backward from the maximum date; the
`all` button restores the full range. -/
def presetWindow (b : RangeButton) (mn mx : Int) : Int × Int :=
  match b.step with
  | "all" => (mn, mx)
  | "day" => (mx - (b.count.getD 1 : Nat), mx)
  | "month" => (mx - 30 * ((b.count.getD 1 : Nat) : Int), mx)
  | _ => (mn, mx)

/-! ### Sample inputs -/

/-- A sample cumulative table carrying all three expected columns. -/
def dfTS : TSTable :=
  { index := ["2020-03-01", "2020-03-02", "2020-03-03"]
    cols := [("Confirmed", [10, 20, 40]), ("Recovered", [1, 2, 4]), ("Deaths", [0, 1, 2])] }

/-- A sample cumulative table missing the `Deaths` column. -/
def dfTSMissing : TSTable :=
  { index := ["2020-03-01", "2020-03-02"]
    cols := [("Confirmed", [10, 20]), ("Recovered", [1, 2])] }

/-- A sample daily-cases table. -/
def dailyCasesSample : DailyTable :=
  { date := ["2020-03-01", "2020-03-02"], world := [100, 120] }

/-- A sample daily-deaths table. -/
def dailyDeathsSample : DailyTable :=
  { date := ["2020-03-01", "2020-03-02"], world := [5, 7] }

/-- A sample per-location table for `world_map`. -/
def geoSample : GeoTable :=
  { rows :=
      [ { lat := 40, long_ := -3, confirmed := 500, country_region := "Spain",
          combined_key := "Spain" },
        { lat := 46, long_ := 2, confirmed := 900, country_region := "France",
          combined_key := "France" } ] }

/-- A sample geojson document. -/
def geoJsonSample : GeoJSON := { raw := "counties" }

/-- A sample county table that carries the anomalous index label 2311. -/
def dfUSA : CountyTable :=
  { rows :=
      [ { idx := 2310, fips := "01001", cases_capita := 1 },
        { idx := 2311, fips := "90049", cases_capita := 0 },
        { idx := 2312, fips := "01003", cases_capita := 2 } ] }

/-- A sample county table whose index lacks the label 2311. -/
def dfUSANoAnomaly : CountyTable :=
  { rows :=
      [ { idx := 1, fips := "01001", cases_capita := 1 },
        { idx := 2, fips := "01003", cases_capita := 2 } ] }

/-! ### Helper lemmas -/

/-- A column search that succeeds makes the pandas attribute access
succeed. -/
theorem TSTable.col_isOk {df : TSTable} {c : String}
    (h : (df.cols.find? (fun p => p.fst = c)).isSome = true) :
    ∃ v, df.col c = .ok v := by
  rcases hf : df.cols.find? (fun p => p.fst = c) with _ | p
  · rw [hf] at h; cases h
  · exact ⟨p.snd, by simp [TSTable.col, hf]⟩

/-- `drop` on a label the index carries removes exactly the rows with
that label. -/
theorem CountyTable.drop_of_any {df : CountyTable} {label : Nat}
    (h : df.rows.any (fun r => r.idx == label) = true) :
    df.drop label = .ok ⟨df.rows.filter (fun r => ¬ r.idx = label)⟩ := by
  simp [CountyTable.drop, h]

/-- `drop` on a label absent from the index raises `KeyError`. -/
theorem CountyTable.drop_of_not_any {df : CountyTable} {label : Nat}
    (h : df.rows.any (fun r => r.idx == label) = false) :
    df.drop label = .error (.keyError label) := by
  simp [CountyTable.drop, h]

/-! ### Claims -/

/-- Claim C1: the spec requires `usa_map` to return non-null chart
markup, but the source ends in `return None` for every input, even when
the call completes and the figure is built: the rendered output is
discarded (the defect the spec documents). -/
theorem usa_map_returns_no_markup :
    (∀ (geo : GeoJSON) (df : CountyTable), returnedMarkup (usa_map geo df) = none) ∧
    (usa_map geoJsonSample dfUSA).toOption.isSome = true := by
  constructor
  · intro geo df
    cases h : df.drop 2311 <;> simp [usa_map, returnedMarkup, h]
  · decide

/-- Claim C2: for every table carrying the `Confirmed`, `Recovered` and
`Deaths` columns, `total_growth` builds exactly three traces, labelled
and inserted in the order Confirmed, Deaths, Recovered, with the Deaths
trace carrying the fixed red `#f5365c` and the other two left at the
default color. -/
theorem total_growth_series (df : TSTable) (h : df.hasCols = true) :
    Except.map (fun res => (res.plot_div.fig.data.map Trace.name,
        res.plot_div.fig.data.map Trace.marker_color)) (total_growth df)
      = .ok (["Confirmed", "Deaths", "Recovered"],
             [none, some "#f5365c", none]) := by
  simp only [TSTable.hasCols, List.all_cons, List.all_nil,
    Bool.and_eq_true] at h
  obtain ⟨h1, h2, h3, -⟩ := h
  obtain ⟨vc, hc⟩ := TSTable.col_isOk h1
  obtain ⟨vr, hr⟩ := TSTable.col_isOk h2
  obtain ⟨vd, hd⟩ := TSTable.col_isOk h3
  simp [total_growth, hc, hr, hd, Except.map, plot]

/-- Witness for claim C2 at a concrete three-column table. -/
theorem total_growth_series_witness :
    dfTS.hasCols = true ∧
    Except.map (fun res => (res.plot_div.fig.data.map Trace.name,
        res.plot_div.fig.data.map Trace.marker_color)) (total_growth dfTS)
      = .ok (["Confirmed", "Deaths", "Recovered"],
             [none, some "#f5365c", none]) :=
  ⟨by decide, total_growth_series dfTS (by decide)⟩

/-- Claim C3 counterexample: the claim says no chart function mutates
its input table, but `usa_map` drops index label 2311 in place: on a
concrete table carrying that label the call completes and the table
afterwards differs from the table before. -/
theorem usa_map_mutates_table :
    (usa_map geoJsonSample dfUSA).toOption.isSome = true ∧
    dfAfterOf (usa_map geoJsonSample dfUSA) ≠ some dfUSA := by
  decide

/-- Claim C3 (amended): `total_growth`, `daily_growth` and `world_map`
leave their input tables exactly as they were, while `usa_map` mutates
its table in place, leaving it equal to the input with every row
labelled 2311 removed. -/
theorem chart_tables_after_call (df : TSTable) (c d : DailyTable)
    (g : GeoTable) (geo : GeoJSON) (u : CountyTable) :
    Except.map (fun r => r.dfAfter) (total_growth df)
        = Except.map (fun _ => df) (total_growth df) ∧
    (daily_growth c d).casesAfter = c ∧
    (daily_growth c d).deathsAfter = d ∧
    (world_map g).dfAfter = g ∧
    Except.map (fun r => r.dfAfter) (usa_map geo u)
        = Except.map
            (fun _ => (⟨u.rows.filter (fun r => ¬ r.idx = 2311)⟩ : CountyTable))
            (usa_map geo u) := by
  refine ⟨?_, rfl, rfl, rfl, ?_⟩
  · cases h1 : df.col "Confirmed" <;>
    cases h2 : df.col "Recovered" <;>
    cases h3 : df.col "Deaths" <;>
    simp [total_growth, h1, h2, h3, Except.map]
  · cases hb : u.rows.any (fun r => r.idx == 2311)
    · simp [usa_map, CountyTable.drop_of_not_any hb, Except.map]
    · simp [usa_map, CountyTable.drop_of_any hb, Except.map]

/-- Claim C4: `daily_growth` inserts the cases trace first with initial
visibility `legendonly` (not rendered) and the deaths trace after it,
rendered by default; each trace carries the input tables' date and
World columns unchanged, and flipping a visibility flag leaves the x/y
data of both traces untouched. -/
theorem daily_growth_trace_visibility (c d : DailyTable) :
    ((daily_growth c d).plot_div.fig.data.map Trace.name = ["Cases", "Deaths"]) ∧
    ((daily_growth c d).plot_div.fig.data.map Trace.visible
        = [some "legendonly", none]) ∧
    ((daily_growth c d).plot_div.fig.data.map Trace.initiallyRendered
        = [false, true]) ∧
    ((daily_growth c d).plot_div.fig.data.map (fun tr => (tr.x, tr.y))
        = [(c.date, c.world), (d.date, d.world)]) ∧
    (∀ v : Option String,
        (daily_growth c d).plot_div.fig.data.map
            (fun tr => ((tr.setVisible v).x, (tr.setVisible v).y))
          = [(c.date, c.world), (d.date, d.world)]) :=
  ⟨rfl, rfl, rfl, rfl, fun _ => rfl⟩

/-- The rightmost toggle of a sequence decides the figure: any earlier
log/linear toggles are overwritten, so in particular applying the same
toggle twice equals applying it once. -/
theorem applyToggles_append (fig : Figure) (ts : List String) (t : String) :
    applyToggles fig (ts ++ [t]) = applyToggle fig t := by
  induction ts generalizing fig with
  | nil => rfl
  | cons a ts ih =>
    show applyToggles (applyToggle fig a) (ts ++ [t]) = applyToggle fig t
    rw [ih]
    rfl

/-- No sequence of log/linear toggles changes the figure's traces. -/
theorem applyToggles_data (fig : Figure) (ts : List String) :
    (applyToggles fig ts).data = fig.data := by
  induction ts generalizing fig with
  | nil => rfl
  | cons a ts ih =>
    show (applyToggles (applyToggle fig a) ts).data = fig.data
    rw [ih]
    rfl

/-- Claim C6: the figure of `total_growth` declares a logarithmic
y-axis by default and carries the two relayout buttons; a toggle
rewrites only the declared `yaxis.type`, so every toggle sequence
leaves the three series' x/y data identical to the untoggled figure,
and any toggle sequence ending in `t` equals the single toggle `t`
(idempotence, and irrelevance of the earlier order). -/
theorem total_growth_log_toggle (df : TSTable) (h : df.hasCols = true) :
    (Except.map (fun res => res.plot_div.fig.layout.yaxis_type) (total_growth df)
        = .ok (some "log")) ∧
    (Except.map (fun res => res.plot_div.fig.layout.updatemenus.map (fun m =>
          (m.ttype, m.buttons.map (fun b => (b.label, b.args_yaxis_type, b.method)))))
        (total_growth df)
        = .ok [("dropdown", [("Logarithmic", "log", "relayout"),
                             ("Linear", "linear", "relayout")])]) ∧
    (∀ res, total_growth df = .ok res → ∀ ts : List String,
        (applyToggles res.plot_div.fig ts).data = res.plot_div.fig.data) ∧
    (∀ fig : Figure, ∀ ts : List String, ∀ t : String,
        applyToggles fig (ts ++ [t]) = applyToggle fig t) := by
  refine ⟨?_, ?_, fun res _ ts => applyToggles_data res.plot_div.fig ts,
    fun fig ts t => applyToggles_append fig ts t⟩ <;>
  · simp only [TSTable.hasCols, List.all_cons, List.all_nil,
      Bool.and_eq_true] at h
    obtain ⟨h1, h2, h3, -⟩ := h
    obtain ⟨vc, hc⟩ := TSTable.col_isOk h1
    obtain ⟨vr, hr⟩ := TSTable.col_isOk h2
    obtain ⟨vd, hd⟩ := TSTable.col_isOk h3
    simp [total_growth, hc, hr, hd, Except.map, plot, totalGrowthLayout,
      logLinearMenu]

/-- Witness for claim C6 at a concrete three-column table. -/
theorem total_growth_log_toggle_witness :
    dfTS.hasCols = true ∧
    ((Except.map (fun res => res.plot_div.fig.layout.yaxis_type) (total_growth dfTS)
        = .ok (some "log")) ∧
    (Except.map (fun res => res.plot_div.fig.layout.updatemenus.map (fun m =>
          (m.ttype, m.buttons.map (fun b => (b.label, b.args_yaxis_type, b.method)))))
        (total_growth dfTS)
        = .ok [("dropdown", [("Logarithmic", "log", "relayout"),
                             ("Linear", "linear", "relayout")])]) ∧
    (∀ res, total_growth dfTS = .ok res → ∀ ts : List String,
        (applyToggles res.plot_div.fig ts).data = res.plot_div.fig.data) ∧
    (∀ fig : Figure, ∀ ts : List String, ∀ t : String,
        applyToggles fig (ts ++ [t]) = applyToggle fig t)) :=
  ⟨by decide, total_growth_log_toggle dfTS (by decide)⟩

/-- Claim C5: the range selector of `daily_growth` holds exactly four
presets, in source order trailing week, trailing month, trailing three
months, all-time; on an axis of day numbers (months idealized to 30
days) whose table spans more than three months, each preset selects a
sub-range of the table's full range, anchored at the maximum date, of
the span its label announces. -/
theorem daily_growth_range_presets (c d : DailyTable) (mn mx : Int)
    (h : 90 < mx - mn) :
    ((daily_growth c d).plot_div.fig.layout.rangeselector_buttons
        = [ { count := some 7, label := "W", step := "day", stepmode := some "backward" },
            { count := some 1, label := "M", step := "month", stepmode := some "backward" },
            { count := some 3, label := "3M", step := "month", stepmode := some "backward" },
            { count := none, label := "T", step := "all", stepmode := none } ]) ∧
    ((daily_growth c d).plot_div.fig.layout.rangeselector_buttons.map
        (fun b => presetWindow b mn mx)
        = [(mx - 7, mx), (mx - 30, mx), (mx - 90, mx), (mn, mx)]) ∧
    (∀ w ∈ (daily_growth c d).plot_div.fig.layout.rangeselector_buttons.map
        (fun b => presetWindow b mn mx),
      mn ≤ w.1 ∧ w.1 ≤ w.2 ∧ w.2 = mx) := by
  refine ⟨rfl, ?_, ?_⟩
  · show rangeSelectorButtons.map (fun b => presetWindow b mn mx) = _
    simp [rangeSelectorButtons, presetWindow]
  · intro w hw
    simp only [List.mem_map] at hw
    obtain ⟨b, hb, rfl⟩ := hw
    have hb2 : b ∈ rangeSelectorButtons := hb
    simp only [rangeSelectorButtons, List.mem_cons, List.not_mem_nil,
      or_false] at hb2
    rcases hb2 with rfl | rfl | rfl | rfl <;>
      refine ⟨?_, ?_, ?_⟩ <;> simp [presetWindow] <;> omega

/-- Witness for claim C5 at concrete tables and a 100-day axis range. -/
theorem daily_growth_range_presets_witness :
    (90 < (100 : Int) - 0) ∧
    (((daily_growth dailyCasesSample dailyDeathsSample).plot_div.fig.layout.rangeselector_buttons
        = [ { count := some 7, label := "W", step := "day", stepmode := some "backward" },
            { count := some 1, label := "M", step := "month", stepmode := some "backward" },
            { count := some 3, label := "3M", step := "month", stepmode := some "backward" },
            { count := none, label := "T", step := "all", stepmode := none } ]) ∧
    ((daily_growth dailyCasesSample dailyDeathsSample).plot_div.fig.layout.rangeselector_buttons.map
        (fun b => presetWindow b 0 100)
        = [(100 - 7, 100), (100 - 30, 100), (100 - 90, 100), (0, 100)]) ∧
    (∀ w ∈ (daily_growth dailyCasesSample dailyDeathsSample).plot_div.fig.layout.rangeselector_buttons.map
        (fun b => presetWindow b 0 100),
      0 ≤ w.1 ∧ w.1 ≤ w.2 ∧ w.2 = 100)) :=
  ⟨by decide, daily_growth_range_presets dailyCasesSample dailyDeathsSample 0 100 (by decide)⟩

/-- Reading an entry of a mapped confirmed column is reading the row's
confirmed count. -/
theorem getD_map_confirmed (l : List GeoRow) (i : Nat) (h : i < l.length) :
    (l.map (fun r => r.confirmed)).getD i 0 = (l.getD i default).confirmed := by
  induction l generalizing i with
  | nil => cases h
  | cons a l ih =>
    cases i with
    | zero => rfl
    | succ n => exact ih n (Nat.lt_of_succ_lt_succ h)

/-- Claim C7: in `world_map` the bubble size channel and the color
channel are both fed the row's confirmed count, so each is a monotone
non-decreasing function of that count across rows. -/
theorem world_map_size_color_monotone (g : GeoTable) :
    ((world_map g).plot_div.fig.trace.size_values = g.rows.map (fun r => r.confirmed) ∧
     (world_map g).plot_div.fig.trace.color_values = g.rows.map (fun r => r.confirmed)) ∧
    (∀ i j : Nat, i < g.rows.length → j < g.rows.length →
        (g.rows.getD i default).confirmed ≤ (g.rows.getD j default).confirmed →
        (world_map g).plot_div.fig.trace.size_values.getD i 0
            ≤ (world_map g).plot_div.fig.trace.size_values.getD j 0 ∧
        (world_map g).plot_div.fig.trace.color_values.getD i 0
            ≤ (world_map g).plot_div.fig.trace.color_values.getD j 0) := by
  refine ⟨⟨rfl, rfl⟩, ?_⟩
  intro i j hi hj hle
  constructor <;>
  · show (g.rows.map (fun r => r.confirmed)).getD i 0
        ≤ (g.rows.map (fun r => r.confirmed)).getD j 0
    rw [getD_map_confirmed g.rows i hi, getD_map_confirmed g.rows j hj]
    exact hle

/-- Witness for claim C7 at a concrete two-row table. -/
theorem world_map_size_color_monotone_witness :
    (0 < geoSample.rows.length ∧ 1 < geoSample.rows.length ∧
      (geoSample.rows.getD 0 default).confirmed
        ≤ (geoSample.rows.getD 1 default).confirmed) ∧
    ((world_map geoSample).plot_div.fig.trace.size_values.getD 0 0
        ≤ (world_map geoSample).plot_div.fig.trace.size_values.getD 1 0 ∧
     (world_map geoSample).plot_div.fig.trace.color_values.getD 0 0
        ≤ (world_map geoSample).plot_div.fig.trace.color_values.getD 1 0) :=
  ⟨⟨by decide, by decide, by decide⟩,
   (world_map_size_color_monotone geoSample).2 0 1 (by decide) (by decide) (by decide)⟩

/-- Claim C8: when the input table carries the anomalous index label
2311, `usa_map` completes and the locations and values handed to the
choropleth trace are exactly those of the rows without that label: the
anomalous row is excluded before rendering. -/
theorem usa_map_excludes_anomalous_row (geo : GeoJSON) (df : CountyTable)
    (h : df.rows.any (fun r => r.idx == 2311) = true) :
    Except.map (fun res => (res.figBuilt.trace.locations, res.figBuilt.trace.z))
        (usa_map geo df)
      = .ok ((df.rows.filter (fun r => ¬ r.idx = 2311)).map (fun r => r.fips),
             (df.rows.filter (fun r => ¬ r.idx = 2311)).map (fun r => r.cases_capita)) := by
  simp [usa_map, CountyTable.drop_of_any h, Except.map]

/-- Witness for claim C8 at a concrete table carrying label 2311. -/
theorem usa_map_excludes_anomalous_row_witness :
    (dfUSA.rows.any (fun r => r.idx == 2311) = true) ∧
    Except.map (fun res => (res.figBuilt.trace.locations, res.figBuilt.trace.z))
        (usa_map geoJsonSample dfUSA)
      = .ok ((dfUSA.rows.filter (fun r => ¬ r.idx = 2311)).map (fun r => r.fips),
             (dfUSA.rows.filter (fun r => ¬ r.idx = 2311)).map (fun r => r.cases_capita)) :=
  ⟨by decide, usa_map_excludes_anomalous_row geoJsonSample dfUSA (by decide)⟩

/-- Claim C9: `total_growth` succeeds exactly on tables carrying the
three expected columns, and every failure is a missing-column error
naming one of the three expected columns that the table indeed lacks. -/
theorem total_growth_missing_column (df : TSTable) :
    ((total_growth df).toOption.isSome = df.hasCols) ∧
    (∀ e, total_growth df = .error e →
        ∃ c, c ∈ ["Confirmed", "Recovered", "Deaths"] ∧ e = .missingColumn c ∧
          df.cols.find? (fun p => p.fst = c) = none) := by
  constructor
  · cases h1 : df.cols.find? (fun p => p.fst = "Confirmed") <;>
    cases h2 : df.cols.find? (fun p => p.fst = "Recovered") <;>
    cases h3 : df.cols.find? (fun p => p.fst = "Deaths") <;>
    simp [total_growth, TSTable.col, TSTable.hasCols, h1, h2, h3,
      Except.toOption]
  · intro e he
    cases h1 : df.cols.find? (fun p => p.fst = "Confirmed") with
    | none =>
      refine ⟨"Confirmed", by simp, ?_, h1⟩
      simp [total_growth, TSTable.col, h1] at he
      exact he.symm
    | some p =>
      cases h2 : df.cols.find? (fun p2 => p2.fst = "Recovered") with
      | none =>
        refine ⟨"Recovered", by simp, ?_, h2⟩
        simp [total_growth, TSTable.col, h1, h2] at he
        exact he.symm
      | some q =>
        cases h3 : df.cols.find? (fun p3 => p3.fst = "Deaths") with
        | none =>
          refine ⟨"Deaths", by simp, ?_, h3⟩
          simp [total_growth, TSTable.col, h1, h2, h3] at he
          exact he.symm
        | some r =>
          exfalso
          simp [total_growth, TSTable.col, h1, h2, h3] at he

/-- Witness for claim C9 at a concrete table lacking `Deaths`. -/
theorem total_growth_missing_column_witness :
    ((total_growth dfTSMissing).toOption.isSome = dfTSMissing.hasCols) ∧
    (∃ c, c ∈ ["Confirmed", "Recovered", "Deaths"] ∧
        PlotsError.missingColumn "Deaths" = .missingColumn c ∧
        dfTSMissing.cols.find? (fun p => p.fst = c) = none) :=
  ⟨(total_growth_missing_column dfTSMissing).1,
   (total_growth_missing_column dfTSMissing).2 (.missingColumn "Deaths") (by rfl)⟩

/-- Claim C10: on any table whose index lacks the label 2311, the
unconditional positional `drop` of `usa_map` raises `KeyError` before
any figure is built. -/
theorem usa_map_missing_label_keyerror (geo : GeoJSON) (df : CountyTable)
    (h : df.rows.any (fun r => r.idx == 2311) = false) :
    usa_map geo df = .error (.keyError 2311) := by
  simp [usa_map, CountyTable.drop_of_not_any h]

/-- Witness for claim C10 at a concrete table without label 2311. -/
theorem usa_map_missing_label_keyerror_witness :
    (dfUSANoAnomaly.rows.any (fun r => r.idx == 2311) = false) ∧
    usa_map geoJsonSample dfUSANoAnomaly = .error (.keyError 2311) :=
  ⟨by decide,
   usa_map_missing_label_keyerror geoJsonSample dfUSANoAnomaly (by decide)⟩

end CovidDashboard
